import Mathlib

/-
  Verification of the IndexedDB adaptation layer (src/adapters.js).

  The JavaScript source bridges an event-driven storage API into futures and
  asynchronous sequences.  We give a shallow embedding: each asynchronous
  orchestration in the source becomes an executable state machine whose step
  function models dispatching one engine notification followed by a full
  microtask drain (promise reactions run to completion before the next
  engine notification is delivered, as in the JS event loop).
-/

namespace IndexedDB

/-- Event names used by the layer (src/adapters.js lines 2-9, the eventTypes table). -/
inductive EvName where
  | error
  | abort
  | success
  | blocked
  | complete
  | upgradeNeeded
deriving DecidableEq, Repr

/-- A native pending request handle: the layer reads only its result and error
fields (request.result, request.error), once the matching notification fired. -/
structure Request (V E : Type) where
  result : V
  error : E
deriving DecidableEq, Repr

/-- Subscription state of one notification bridge created by once (src lines 11-35):
targetSub is the onEvent listener on the event target, signalSub the onAbort
listener on the cancellation signal.  removeListeners always removes both. -/
structure OnceBridge where
  targetSub : Bool
  signalSub : Bool
deriving DecidableEq, Repr

/-- Both listeners registered (state right after once subscribes). -/
def OnceBridge.subscribed : OnceBridge := ⟨true, true⟩

/-- Both listeners removed (state after removeListeners ran). -/
def OnceBridge.cleared : OnceBridge := ⟨false, false⟩

/-- Effect of firing abort on the signal for one bridge: if its onAbort listener
is still registered, removeListeners runs and clears both subscriptions;
otherwise nothing happens (src lines 17-25). -/
def OnceBridge.onAbort (b : OnceBridge) : OnceBridge :=
  if b.signalSub then OnceBridge.cleared else b

@[simp] theorem cleared_targetSub : OnceBridge.cleared.targetSub = false := rfl

@[simp] theorem cleared_signalSub : OnceBridge.cleared.signalSub = false := rfl

@[simp] theorem subscribed_targetSub : OnceBridge.subscribed.targetSub = true := rfl

@[simp] theorem subscribed_signalSub : OnceBridge.subscribed.signalSub = true := rfl

@[simp] theorem onAbort_subscribed : OnceBridge.subscribed.onAbort = OnceBridge.cleared := rfl

@[simp] theorem onAbort_cleared : OnceBridge.cleared.onAbort = OnceBridge.cleared := rfl

/-- Settlement of a future: resolved with a value or rejected with an error. -/
inductive Outcome (V E : Type) where
  | resolved (v : V)
  | rejected (e : E)
deriving DecidableEq, Repr

/-- State of one adaptRequest run (src lines 37-53): the success and error
bridges created by the two once calls racing on the request, and the
settlement of the future returned by adaptRequest. -/
structure AdaptState (V E : Type) where
  succ : OnceBridge
  err : OnceBridge
  settled : Option (Outcome V E)
deriving DecidableEq, Repr

/-- State right after adaptRequest subscribed both bridges (registration is
synchronous, before control returns to the caller). -/
def AdaptState.init {V E : Type} : AdaptState V E :=
  ⟨OnceBridge.subscribed, OnceBridge.subscribed, none⟩

/-- Dispatch one engine notification to an adaptRequest run and drain the
microtask queue (src lines 37-53).  A success event with a live success
listener clears that bridge, wins the race, the async body returns
req.result, and the finally clause aborts the controller, which fires
onAbort on the losing error bridge and clears it; symmetrically for error,
which throws req.error.  Any other event has no listener and is ignored. -/
def deliverReq {V E : Type} (req : Request V E) (s : AdaptState V E) (e : EvName) :
    AdaptState V E :=
  match e with
  | EvName.success =>
    if s.succ.targetSub then
      let s1 : AdaptState V E := { s with succ := OnceBridge.cleared }
      match s1.settled with
      | none =>
        { s1 with settled := some (Outcome.resolved req.result), err := s1.err.onAbort }
      | some _ => s1
    else s
  | EvName.error =>
    if s.err.targetSub then
      let s1 : AdaptState V E := { s with err := OnceBridge.cleared }
      match s1.settled with
      | none =>
        { s1 with settled := some (Outcome.rejected req.error), succ := s1.succ.onAbort }
      | some _ => s1
    else s
  | _ => s

/-- Run an adaptRequest future against a whole sequence of engine notifications. -/
def runReq {V E : Type} (req : Request V E) (es : List EvName) : AdaptState V E :=
  es.foldl (deliverReq req) AdaptState.init

/-- Terminal notifications of a plain request: success or error. -/
def isReqTerminal (e : EvName) : Bool :=
  match e with
  | EvName.success => true
  | EvName.error => true
  | _ => false

/-- First terminal notification of an event sequence, if any. -/
def firstTerminal : List EvName → Option EvName
  | [] => none
  | e :: rest => if isReqTerminal e then some e else firstTerminal rest

theorem deliverReq_absorb {V E : Type} (req : Request V E) (s : AdaptState V E)
    (hs : s.succ = OnceBridge.cleared) (he : s.err = OnceBridge.cleared) (e : EvName) :
    deliverReq req s e = s := by
  cases e <;> simp [deliverReq, hs, he]

theorem foldl_deliverReq_absorb {V E : Type} (req : Request V E) (s : AdaptState V E)
    (hs : s.succ = OnceBridge.cleared) (he : s.err = OnceBridge.cleared)
    (es : List EvName) : es.foldl (deliverReq req) s = s := by
  induction es with
  | nil => rfl
  | cons e rest ih =>
    rw [List.foldl_cons, deliverReq_absorb req s hs he e]
    exact ih

theorem deliverReq_init_success {V E : Type} (req : Request V E) :
    deliverReq req AdaptState.init EvName.success =
      ⟨OnceBridge.cleared, OnceBridge.cleared, some (Outcome.resolved req.result)⟩ := rfl

theorem deliverReq_init_error {V E : Type} (req : Request V E) :
    deliverReq req AdaptState.init EvName.error =
      ⟨OnceBridge.cleared, OnceBridge.cleared, some (Outcome.rejected req.error)⟩ := rfl

theorem runReq_first_success {V E : Type} (req : Request V E) (es : List EvName)
    (h : firstTerminal es = some EvName.success) :
    runReq req es =
      ⟨OnceBridge.cleared, OnceBridge.cleared, some (Outcome.resolved req.result)⟩ := by
  induction es with
  | nil => simp [firstTerminal] at h
  | cons e rest ih =>
    cases e with
    | success =>
      show rest.foldl (deliverReq req) (deliverReq req AdaptState.init EvName.success) = _
      rw [deliverReq_init_success]
      exact foldl_deliverReq_absorb req _ rfl rfl rest
    | error => simp [firstTerminal, isReqTerminal] at h
    | abort => exact ih (by simpa [firstTerminal, isReqTerminal] using h)
    | blocked => exact ih (by simpa [firstTerminal, isReqTerminal] using h)
    | complete => exact ih (by simpa [firstTerminal, isReqTerminal] using h)
    | upgradeNeeded => exact ih (by simpa [firstTerminal, isReqTerminal] using h)

theorem runReq_first_error {V E : Type} (req : Request V E) (es : List EvName)
    (h : firstTerminal es = some EvName.error) :
    runReq req es =
      ⟨OnceBridge.cleared, OnceBridge.cleared, some (Outcome.rejected req.error)⟩ := by
  induction es with
  | nil => simp [firstTerminal] at h
  | cons e rest ih =>
    cases e with
    | error =>
      show rest.foldl (deliverReq req) (deliverReq req AdaptState.init EvName.error) = _
      rw [deliverReq_init_error]
      exact foldl_deliverReq_absorb req _ rfl rfl rest
    | success => simp [firstTerminal, isReqTerminal] at h
    | abort => exact ih (by simpa [firstTerminal, isReqTerminal] using h)
    | blocked => exact ih (by simpa [firstTerminal, isReqTerminal] using h)
    | complete => exact ih (by simpa [firstTerminal, isReqTerminal] using h)
    | upgradeNeeded => exact ih (by simpa [firstTerminal, isReqTerminal] using h)

theorem deliverReq_settled_mono {V E : Type} (req : Request V E) (s : AdaptState V E)
    (e : EvName) (o : Outcome V E) (h : s.settled = some o) :
    (deliverReq req s e).settled = some o := by
  cases e with
  | success =>
    by_cases hb : s.succ.targetSub <;> simp [deliverReq, hb, h]
  | error =>
    by_cases hb : s.err.targetSub <;> simp [deliverReq, hb, h]
  | abort => exact h
  | blocked => exact h
  | complete => exact h
  | upgradeNeeded => exact h

/-- Claim C1: adaptRequest settles with the first-fired terminal notification —
success first resolves with the request's result value, error first rejects
with the engine-reported error passed through verbatim; and when success fires
first, a later error notification is a complete no-op (its listener was
already removed, so only the success outcome is produced and nothing is left
to fail unhandled). -/
theorem adaptRequest_first_fired_wins {V E : Type} (req : Request V E) (es : List EvName) :
    (firstTerminal es = some EvName.success →
      (runReq req es).settled = some (Outcome.resolved req.result)) ∧
    (firstTerminal es = some EvName.error →
      (runReq req es).settled = some (Outcome.rejected req.error)) ∧
    deliverReq req (runReq req [EvName.success]) EvName.error = runReq req [EvName.success] ∧
    (runReq req [EvName.success, EvName.error]).settled = some (Outcome.resolved req.result) := by
  refine ⟨fun h => by rw [runReq_first_success req es h], fun h => by rw [runReq_first_error req es h], ?_, rfl⟩
  exact deliverReq_absorb req _ rfl rfl EvName.error

/-- Concrete request used by witnesses. -/
def reqW : Request Nat String := ⟨5, "engine failure"⟩

/-- Witness for C1: on the concrete request reqW, firing success then error
settles the future with the success value 5. -/
theorem adaptRequest_first_fired_wins_witness :
    (runReq reqW [EvName.success, EvName.error]).settled = some (Outcome.resolved 5) :=
  (adaptRequest_first_fired_wins reqW [EvName.success, EvName.error]).1 (by decide)

/-- Claim C2: for any nonempty sequence of success/error notifications delivered
to an adaptRequest future, a settlement occurs, the settlement never changes
once made (exactly one settlement), and afterwards both bridges are fully
unsubscribed: zero listeners remain on the success or error notification
names, and the delivered prefix fully determines the run (appending further
notifications changes nothing). -/
theorem adaptRequest_exactly_one_settlement {V E : Type} (req : Request V E)
    (es : List EvName) (hne : es ≠ [])
    (hall : ∀ e ∈ es, e = EvName.success ∨ e = EvName.error) :
    ((runReq req es).settled).isSome = true ∧
    (runReq req es).succ = OnceBridge.cleared ∧
    (runReq req es).err = OnceBridge.cleared ∧
    (∀ es2, runReq req (es ++ es2) = runReq req es) ∧
    (∀ (s : AdaptState V E) (e : EvName) (o : Outcome V E),
      s.settled = some o → (deliverReq req s e).settled = some o) := by
  obtain ⟨e, rest, rfl⟩ : ∃ e rest, es = e :: rest := by
    cases es with
    | nil => exact absurd rfl hne
    | cons e rest => exact ⟨e, rest, rfl⟩
  have hstate :
      runReq req (e :: rest) = ⟨OnceBridge.cleared, OnceBridge.cleared, some (Outcome.resolved req.result)⟩ ∨
      runReq req (e :: rest) = ⟨OnceBridge.cleared, OnceBridge.cleared, some (Outcome.rejected req.error)⟩ := by
    rcases hall e (by simp) with h1 | h1 <;> subst h1
    · exact Or.inl (runReq_first_success req _ (by simp [firstTerminal, isReqTerminal]))
    · exact Or.inr (runReq_first_error req _ (by simp [firstTerminal, isReqTerminal]))
  have happ : ∀ es2, runReq req ((e :: rest) ++ es2) = runReq req (e :: rest) := by
    intro es2
    show ((e :: rest) ++ es2).foldl (deliverReq req) AdaptState.init = _
    rw [List.foldl_append]
    rcases hstate with h | h <;>
      · show es2.foldl (deliverReq req) (runReq req (e :: rest)) = _
        rw [h]
        exact foldl_deliverReq_absorb req _ rfl rfl es2
  rcases hstate with h | h <;>
    exact ⟨by rw [h]; rfl, by rw [h], by rw [h], happ,
      fun s e o ho => deliverReq_settled_mono req s e o ho⟩

/-- Witness for C2: delivering a single error notification to the concrete
request reqW settles the future. -/
theorem adaptRequest_exactly_one_settlement_witness :
    ((runReq reqW [EvName.error]).settled).isSome = true :=
  (adaptRequest_exactly_one_settlement reqW [EvName.error] (by decide) (by decide)).1

/-- State of a cancellation token (an AbortSignal): whether it is already
cancelled, and how many abort listeners are registered on it. -/
structure SignalState where
  aborted : Bool
  subs : Nat
deriving DecidableEq, Repr

/-- Immediate result of a once call: either a promise rejected right away with
an error carrying the given message, or a pending promise whose listeners
were registered. -/
inductive OncePromise where
  | rejected (msg : String)
  | pending
deriving DecidableEq, Repr

/-- The notification bridge once (src lines 11-35).  Input: the multiset of
listener registrations on the target, the optional cancellation signal, and
the awaited event name.  If the signal is already aborted it returns a
promise rejected with the Error message Operation aborted and touches
neither the target nor the signal; otherwise it registers onEvent on the
target and onAbort on the signal and returns a pending promise. -/
def once (targetSubs : List EvName) (signal : Option SignalState) (eventName : EvName) :
    OncePromise × List EvName × Option SignalState :=
  match signal with
  | some sig =>
    if sig.aborted then
      (OncePromise.rejected "Operation aborted", targetSubs, some sig)
    else
      (OncePromise.pending, eventName :: targetSubs, some { sig with subs := sig.subs + 1 })
  | none => (OncePromise.pending, eventName :: targetSubs, none)

/-- Claim C7: a once call issued against an already-cancelled token rejects
immediately with the Aborted error (message Operation aborted) and registers
zero subscriptions: both the target listener list and the token state are
returned unchanged. -/
theorem once_already_cancelled (t : List EvName) (n : Nat) (eventName : EvName) :
    once t (some ⟨true, n⟩) eventName =
      (OncePromise.rejected "Operation aborted", t, some ⟨true, n⟩) := rfl

/-- An error thrown from the caller's upgrade callback, classified the way the
ignoreAbort guard inspects it (src lines 73-76): an error whose message is
Operation aborted, an error whose name is AbortError, or any other error. -/
inductive ThrownErr (E : Type) where
  | abortedMsg
  | abortNamed
  | other (e : E)
deriving DecidableEq, Repr

/-- The ignoreAbort guard (src lines 73-76): returns true when the error is
swallowed (cancellation-origin), false when it is rethrown. -/
def ignoreAbortSwallows {E : Type} : ThrownErr E → Bool
  | ThrownErr.abortedMsg => true
  | ThrownErr.abortNamed => true
  | ThrownErr.other _ => false

/-- Unhandled rejections escaping the upgrade branch: the then/catch chain on
the upgrade-needed once (src lines 78-80) swallows cancellation-origin
errors via ignoreAbort and rethrows any other error into a promise chain
nobody observes. -/
def upgErrs {E : Type} : Except (ThrownErr E) Unit → List (ThrownErr E)
  | Except.ok _ => []
  | Except.error te => if ignoreAbortSwallows te then [] else [te]

/-- Rejection values of the open protocol: the Error with message Database is
blocked from the blocked branch, or the engine-reported request.error. -/
inductive OpenFail (E : Type) where
  | dbBlocked
  | engineErr (e : E)
deriving DecidableEq, Repr

/-- Message carried by an open-protocol rejection, when it is a fresh Error
created by the layer (src line 83). -/
def OpenFail.message {E : Type} : OpenFail E → Option String
  | OpenFail.dbBlocked => some "Database is blocked"
  | OpenFail.engineErr _ => none

/-- Observable actions of one adaptOpenDBRequest run, in order: an invocation
of the caller's upgrade callback, a call of resolve, or a call of reject. -/
inductive OpenAction (V E : Type) where
  | callbackInvoked
  | resolveCalled (v : V)
  | rejectCalled (f : OpenFail E)
deriving DecidableEq, Repr

/-- Is the action a settlement call (resolve or reject)? -/
def isSettleAction {V E : Type} : OpenAction V E → Bool
  | OpenAction.callbackInvoked => false
  | _ => true

/-- Number of resolve/reject calls recorded in a log. -/
def settleCount {V E : Type} (log : List (OpenAction V E)) : Nat :=
  (log.filter isSettleAction).length

/-- State of one adaptOpenDBRequest run (src lines 69-95): the four once
bridges sharing the controller's signal, the settlement of the returned
promise, the number of upgrade-callback invocations, the list of non-abort
errors rethrown by ignoreAbort on the upgrade branch (unhandled rejections),
and the ordered log of observable actions. -/
structure OpenState (V E : Type) where
  upg : OnceBridge
  blk : OnceBridge
  suc : OnceBridge
  errB : OnceBridge
  settled : Option (Outcome V (OpenFail E))
  upgradeCalls : Nat
  unhandled : List (ThrownErr E)
  log : List (OpenAction V E)
deriving DecidableEq, Repr

/-- State right after adaptOpenDBRequest registered its four bridges. -/
def OpenState.init {V E : Type} : OpenState V E :=
  ⟨OnceBridge.subscribed, OnceBridge.subscribed, OnceBridge.subscribed,
    OnceBridge.subscribed, none, 0, [], []⟩

/-- Effect of the finally clause controller.abort() (src line 95): fire abort
on the shared signal, running onAbort for every bridge still subscribed;
each such bridge is cleared and its promise rejects with the Aborted error,
which the catch ignoreAbort on that branch swallows. -/
def OpenState.abortAll {V E : Type} (s : OpenState V E) : OpenState V E :=
  { s with upg := s.upg.onAbort, blk := s.blk.onAbort,
           suc := s.suc.onAbort, errB := s.errB.onAbort }

/-- Dispatch one engine notification to an adaptOpenDBRequest run and drain
the microtask queue (src lines 69-95).  The upgrade-needed branch clears its
bridge and runs upgradeHandler?.(request.result): absent handler is a no-op,
a throwing handler feeds ignoreAbort, which rethrows non-abort errors into
an unobserved chain (recorded in unhandled).  Each of the blocked, success
and error branches clears its bridge, calls reject or resolve (always
logged), settles the outer promise if still pending, and the finally clause
then aborts the controller, clearing every remaining bridge. -/
def deliverOpen {V E : Type} (req : Request V E)
    (handler : Option (V → Except (ThrownErr E) Unit))
    (s : OpenState V E) (e : EvName) : OpenState V E :=
  match e with
  | EvName.upgradeNeeded =>
    if s.upg.targetSub then
      let s1 : OpenState V E := { s with upg := OnceBridge.cleared }
      match handler with
      | none => s1
      | some cb =>
        { s1 with upgradeCalls := s1.upgradeCalls + 1,
                  log := s1.log ++ [OpenAction.callbackInvoked],
                  unhandled := s1.unhandled ++ upgErrs (cb req.result) }
    else s
  | EvName.blocked =>
    if s.blk.targetSub then
      let s1 : OpenState V E := { s with blk := OnceBridge.cleared }
      let s2 : OpenState V E :=
        { s1 with log := s1.log ++ [OpenAction.rejectCalled OpenFail.dbBlocked] }
      match s2.settled with
      | none => OpenState.abortAll { s2 with settled := some (Outcome.rejected OpenFail.dbBlocked) }
      | some _ => s2
    else s
  | EvName.success =>
    if s.suc.targetSub then
      let s1 : OpenState V E := { s with suc := OnceBridge.cleared }
      let s2 : OpenState V E :=
        { s1 with log := s1.log ++ [OpenAction.resolveCalled req.result] }
      match s2.settled with
      | none => OpenState.abortAll { s2 with settled := some (Outcome.resolved req.result) }
      | some _ => s2
    else s
  | EvName.error =>
    if s.errB.targetSub then
      let s1 : OpenState V E := { s with errB := OnceBridge.cleared }
      let s2 : OpenState V E :=
        { s1 with log := s1.log ++ [OpenAction.rejectCalled (OpenFail.engineErr req.error)] }
      match s2.settled with
      | none =>
        OpenState.abortAll { s2 with settled := some (Outcome.rejected (OpenFail.engineErr req.error)) }
      | some _ => s2
    else s
  | _ => s

/-- Run an adaptOpenDBRequest protocol against a sequence of engine
notifications. -/
def runOpen {V E : Type} (req : Request V E)
    (handler : Option (V → Except (ThrownErr E) Unit)) (es : List EvName) : OpenState V E :=
  es.foldl (deliverOpen req handler) OpenState.init

/-- Terminal notifications of the open protocol: blocked, success or error. -/
def isOpenTerminal (e : EvName) : Bool :=
  match e with
  | EvName.blocked => true
  | EvName.success => true
  | EvName.error => true
  | _ => false

/-- All four bridges fully unsubscribed. -/
def OpenState.bridgesCleared {V E : Type} (s : OpenState V E) : Prop :=
  s.upg = OnceBridge.cleared ∧ s.blk = OnceBridge.cleared ∧
  s.suc = OnceBridge.cleared ∧ s.errB = OnceBridge.cleared

/-- Invariant holding before any terminal notification fired: the three
terminal bridges are subscribed, the upgrade bridge is subscribed or already
fired, the promise is pending, and no settlement call was made. -/
def OpenState.pre {V E : Type} (s : OpenState V E) : Prop :=
  (s.upg = OnceBridge.subscribed ∨ s.upg = OnceBridge.cleared) ∧
  s.blk = OnceBridge.subscribed ∧ s.suc = OnceBridge.subscribed ∧
  s.errB = OnceBridge.subscribed ∧ s.settled = none ∧ settleCount s.log = 0

/-- State after the terminal notification: everything unsubscribed, the
promise settled, exactly one settlement call made. -/
def OpenState.done {V E : Type} (s : OpenState V E) : Prop :=
  s.bridgesCleared ∧ s.settled.isSome = true ∧ settleCount s.log = 1

theorem settleCount_append {V E : Type} (l1 l2 : List (OpenAction V E)) :
    settleCount (l1 ++ l2) = settleCount l1 + settleCount l2 := by
  simp [settleCount, List.filter_append]

theorem deliverOpen_absorb {V E : Type} (req : Request V E)
    (handler : Option (V → Except (ThrownErr E) Unit)) (s : OpenState V E)
    (hc : s.bridgesCleared) (e : EvName) : deliverOpen req handler s e = s := by
  obtain ⟨h1, h2, h3, h4⟩ := hc
  cases e <;> simp [deliverOpen, h1, h2, h3, h4]

theorem foldl_deliverOpen_absorb {V E : Type} (req : Request V E)
    (handler : Option (V → Except (ThrownErr E) Unit)) (s : OpenState V E)
    (hc : s.bridgesCleared) (es : List EvName) :
    es.foldl (deliverOpen req handler) s = s := by
  induction es with
  | nil => rfl
  | cons e rest ih =>
    rw [List.foldl_cons, deliverOpen_absorb req handler s hc e]
    exact ih

theorem deliverOpen_pre_nonterm {V E : Type} (req : Request V E)
    (handler : Option (V → Except (ThrownErr E) Unit)) (s : OpenState V E)
    (hp : s.pre) (e : EvName) (ht : isOpenTerminal e = false) :
    (deliverOpen req handler s e).pre := by
  obtain ⟨h1, h2, h3, h4, h5, h6⟩ := hp
  cases e with
  | blocked => simp [isOpenTerminal] at ht
  | success => simp [isOpenTerminal] at ht
  | error => simp [isOpenTerminal] at ht
  | abort => exact ⟨h1, h2, h3, h4, h5, h6⟩
  | complete => exact ⟨h1, h2, h3, h4, h5, h6⟩
  | upgradeNeeded =>
    rcases h1 with h1 | h1
    · cases handler with
      | none =>
        simp only [deliverOpen, h1, subscribed_targetSub, if_true]
        exact ⟨Or.inr rfl, h2, h3, h4, h5, h6⟩
      | some cb =>
        simp only [deliverOpen, h1, subscribed_targetSub, if_true]
        refine ⟨Or.inr rfl, h2, h3, h4, h5, ?_⟩
        show settleCount (s.log ++ [OpenAction.callbackInvoked]) = 0
        rw [settleCount_append, h6]
        rfl
    · simp only [deliverOpen, h1, cleared_targetSub, if_false]
      exact ⟨Or.inr h1, h2, h3, h4, h5, h6⟩

theorem deliverOpen_pre_term {V E : Type} (req : Request V E)
    (handler : Option (V → Except (ThrownErr E) Unit)) (s : OpenState V E)
    (hp : s.pre) (e : EvName) (ht : isOpenTerminal e = true) :
    (deliverOpen req handler s e).done := by
  obtain ⟨h1, h2, h3, h4, h5, h6⟩ := hp
  have hupg : s.upg.onAbort = OnceBridge.cleared := by
    rcases h1 with h1 | h1 <;> simp [h1]
  cases e with
  | abort => simp [isOpenTerminal] at ht
  | complete => simp [isOpenTerminal] at ht
  | upgradeNeeded => simp [isOpenTerminal] at ht
  | blocked =>
    simp only [deliverOpen, h2, subscribed_targetSub, if_true, h5]
    refine ⟨⟨by simp [OpenState.abortAll, hupg], by simp [OpenState.abortAll],
      by simp [OpenState.abortAll, h3], by simp [OpenState.abortAll, h4]⟩,
      by simp [OpenState.abortAll], ?_⟩
    show settleCount (s.log ++ [OpenAction.rejectCalled OpenFail.dbBlocked]) = 1
    rw [settleCount_append, h6]
    rfl
  | success =>
    simp only [deliverOpen, h3, subscribed_targetSub, if_true, h5]
    refine ⟨⟨by simp [OpenState.abortAll, hupg], by simp [OpenState.abortAll, h2],
      by simp [OpenState.abortAll], by simp [OpenState.abortAll, h4]⟩,
      by simp [OpenState.abortAll], ?_⟩
    show settleCount (s.log ++ [OpenAction.resolveCalled req.result]) = 1
    rw [settleCount_append, h6]
    rfl
  | error =>
    simp only [deliverOpen, h4, subscribed_targetSub, if_true, h5]
    refine ⟨⟨by simp [OpenState.abortAll, hupg], by simp [OpenState.abortAll, h2],
      by simp [OpenState.abortAll, h3], by simp [OpenState.abortAll]⟩,
      by simp [OpenState.abortAll], ?_⟩
    show settleCount (s.log ++ [OpenAction.rejectCalled (OpenFail.engineErr req.error)]) = 1
    rw [settleCount_append, h6]
    rfl

theorem foldl_deliverOpen_done {V E : Type} (req : Request V E)
    (handler : Option (V → Except (ThrownErr E) Unit)) (s : OpenState V E)
    (hd : s.done) (es : List EvName) :
    (es.foldl (deliverOpen req handler) s).done := by
  rw [foldl_deliverOpen_absorb req handler s hd.1 es]
  exact hd

theorem runOpen_terminal_done {V E : Type} (req : Request V E)
    (handler : Option (V → Except (ThrownErr E) Unit)) :
    ∀ (es : List EvName) (s : OpenState V E), s.pre →
      es.any isOpenTerminal = true → (es.foldl (deliverOpen req handler) s).done := by
  intro es
  induction es with
  | nil => intro s _ h; simp at h
  | cons e rest ih =>
    intro s hp h
    rw [List.foldl_cons]
    cases hterm : isOpenTerminal e with
    | true =>
      exact foldl_deliverOpen_done req handler _ (deliverOpen_pre_term req handler s hp e hterm) rest
    | false =>
      have hrest : rest.any isOpenTerminal = true := by
        simp [List.any_cons, hterm] at h
        simpa using h
      exact ih _ (deliverOpen_pre_nonterm req handler s hp e hterm) hrest

theorem openInit_pre {V E : Type} : (OpenState.init : OpenState V E).pre :=
  ⟨Or.inl rfl, rfl, rfl, rfl, rfl, rfl⟩

/-- Claim C3: in the open protocol, firing upgrade-needed then success resolves
with the opened handle and invokes the upgrade callback exactly once,
strictly before the resolve call (the action log is exactly callback then
resolve); firing blocked alone rejects with the Database is blocked error
and never invokes the callback; and for any notification sequence containing
a terminal notification, the run settles and makes exactly one
resolve/reject call. -/
theorem adaptOpenDBRequest_protocol {V E : Type} (req : Request V E)
    (cb : V → Except (ThrownErr E) Unit) (es : List EvName) :
    (runOpen req (some cb) [EvName.upgradeNeeded, EvName.success]).settled
        = some (Outcome.resolved req.result) ∧
    (runOpen req (some cb) [EvName.upgradeNeeded, EvName.success]).upgradeCalls = 1 ∧
    (runOpen req (some cb) [EvName.upgradeNeeded, EvName.success]).log
        = [OpenAction.callbackInvoked, OpenAction.resolveCalled req.result] ∧
    (runOpen req (some cb) [EvName.blocked]).settled
        = some (Outcome.rejected OpenFail.dbBlocked) ∧
    (runOpen req (some cb) [EvName.blocked]).upgradeCalls = 0 ∧
    (es.any isOpenTerminal = true →
      (runOpen req (some cb) es).settled.isSome = true ∧
      settleCount (runOpen req (some cb) es).log = 1) := by
  refine ⟨rfl, rfl, rfl, rfl, rfl, fun h => ?_⟩
  have := runOpen_terminal_done req (some cb) es OpenState.init openInit_pre h
  exact ⟨this.2.1, this.2.2⟩

/-- Concrete open request and well-behaved upgrade callback for witnesses. -/
def reqO : Request Nat String := ⟨7, "open failed"⟩

/-- Upgrade callback that returns normally. -/
def cbOK : Nat → Except (ThrownErr String) Unit := fun _ => Except.ok ()

/-- Witness for C3: on the concrete open request reqO, a run firing just
blocked settles and makes exactly one settlement call. -/
theorem adaptOpenDBRequest_protocol_witness :
    (runOpen reqO (some cbOK) [EvName.blocked]).settled.isSome = true ∧
    settleCount (runOpen reqO (some cbOK) [EvName.blocked]).log = 1 :=
  (adaptOpenDBRequest_protocol reqO cbOK [EvName.blocked]).2.2.2.2.2 (by decide)

/-- Claim C4 (amended): a non-cancellation-origin error raised from inside the
upgrade callback is NOT fatal to the open operation — the future returned by
adaptOpenDBRequest still resolves with the opened handle when success fires,
and the callback error merely escapes the upgrade branch as an unhandled
rejection (ignoreAbort rethrows it into a promise chain nobody observes). -/
theorem upgrade_callback_error_not_fatal {V E : Type} (req : Request V E) (err : E)
    (cb : V → Except (ThrownErr E) Unit)
    (hcb : cb req.result = Except.error (ThrownErr.other err)) :
    (runOpen req (some cb) [EvName.upgradeNeeded, EvName.success]).settled
        = some (Outcome.resolved req.result) ∧
    (runOpen req (some cb) [EvName.upgradeNeeded, EvName.success]).unhandled
        = [ThrownErr.other err] ∧
    (runOpen req (some cb) [EvName.upgradeNeeded, EvName.success]).upgradeCalls = 1 := by
  refine ⟨rfl, ?_, rfl⟩
  show ([] : List (ThrownErr E)) ++ upgErrs (cb req.result) = [ThrownErr.other err]
  rw [hcb]
  rfl

/-- Concrete open request and throwing upgrade callback for the C4
counterexample and witness. -/
def reqC4 : Request Nat String := ⟨42, "engine"⟩

/-- Upgrade callback throwing a non-abort error. -/
def cbBoom : Nat → Except (ThrownErr String) Unit :=
  fun _ => Except.error (ThrownErr.other "boom")

/-- Counterexample to C4 as stated: with a callback that throws the non-abort
error boom, the open operation does not reject with that error — it resolves
with the opened handle 42, and the error is left as an unhandled rejection. -/
theorem upgrade_callback_error_cex :
    (runOpen reqC4 (some cbBoom) [EvName.upgradeNeeded, EvName.success]).settled
        = some (Outcome.resolved 42) ∧
    (runOpen reqC4 (some cbBoom) [EvName.upgradeNeeded, EvName.success]).unhandled
        = [ThrownErr.other "boom"] := by
  exact ⟨rfl, rfl⟩

/-- Witness for the amended C4 at the concrete throwing callback. -/
theorem upgrade_callback_error_not_fatal_witness :
    (runOpen reqC4 (some cbBoom) [EvName.upgradeNeeded, EvName.success]).upgradeCalls = 1 :=
  (upgrade_callback_error_not_fatal reqC4 "boom" cbBoom rfl).2.2

theorem deliverOpen_none_unhandled {V E : Type} (req : Request V E)
    (s : OpenState V E) (e : EvName) :
    (deliverOpen req none s e).unhandled = s.unhandled := by
  cases e <;>
    simp only [deliverOpen] <;>
    split <;>
    first
      | rfl
      | (split <;> simp [OpenState.abortAll])

/-- Claim C10: the upgrade callback is optional — with an absent handler the
upgrade-needed branch is a harmless no-op (it raises no error on any run:
the unhandled list stays empty for every notification sequence), the
callback is never counted as invoked, and a subsequent success still
resolves the operation with the opened handle. -/
theorem open_without_handler_noop {V E : Type} (req : Request V E) :
    (runOpen req none [EvName.upgradeNeeded, EvName.success]).settled
        = some (Outcome.resolved req.result) ∧
    (runOpen req none [EvName.upgradeNeeded, EvName.success]).upgradeCalls = 0 ∧
    (∀ es : List EvName, (runOpen req none es).unhandled = []) := by
  refine ⟨rfl, rfl, fun es => ?_⟩
  have key : ∀ (l : List EvName) (s : OpenState V E),
      (l.foldl (deliverOpen req none) s).unhandled = s.unhandled := by
    intro l
    induction l with
    | nil => intro s; rfl
    | cons e rest ih =>
      intro s
      rw [List.foldl_cons, ih, deliverOpen_none_unhandled]
  exact key es OpenState.init

/-- Argument passed to an adapted operation: no argument, a key, or a value
(the wrapper forwards whatever it received verbatim, src line 166). -/
inductive JArg (K V : Type) where
  | noArg
  | key (k : K)
  | val (v : V)
deriving DecidableEq, Repr

/-- Result of a native-handle operation, as the adaptation layer sees it:
a plain value, a native pending request, a request future produced by
adaptRequest, a proxy produced by a named handle adapter over a raw result,
or the JS undefined value. -/
inductive HRes (V E : Type) where
  | plain (v : V)
  | request (r : Request V E)
  | future (r : Request V E)
  | wrapped (adapterName : String) (raw : HRes V E)
  | undef
deriving DecidableEq, Repr

/-- A wrapper produced by applyAdapters: the hidden source reference installed
as the non-enumerable property on the proxy (src line 160) and the adapted
call dispatch. -/
structure Adapted (S N A R : Type) where
  source : S
  call : N → A → R

/-- The handle-adapter factory applyAdapters (src lines 155-179).  The proxy
keeps a hidden reference to the source handle; calling an operation forwards
it verbatim to the source handle with the same arguments and pipes the raw
result through the adapter named in the schema, or returns the raw result
unchanged when the schema has no entry for that operation.  (The prototype
walk that installs one forwarding wrapper per own-property descriptor is
modelled as the single dispatch function over operation names; getters are
operations taking no argument.) -/
def applyAdapters {S N A R : Type} (src : S) (methods : S → N → A → R)
    (schema : N → Option (R → R)) : Adapted S N A R :=
  { source := src,
    call := fun key args =>
      match schema key with
      | some adapter => adapter (methods src key args)
      | none => methods src key args }

/-- Action of adaptRequest when used as a schema adapter on a raw result
(src lines 37-53 composed at lines 98-100, 116-124): a native request
becomes the future bound to it.  The schemas only ever apply it to request
results; on any other result we record the symbolic application. -/
def adaptRequestH {V E : Type} : HRes V E → HRes V E
  | HRes.request r => HRes.future r
  | h => HRes.wrapped "adaptRequest" h

/-- Action of adaptCursor when used as a schema adapter on a raw result
(src lines 97-102 referenced at lines 125-126): the raw result is wrapped in
a proxy carrying the cursor schema, with the raw result as its hidden
source. -/
def adaptCursorH {V E : Type} : HRes V E → HRes V E :=
  fun h => HRes.wrapped "adaptCursor" h

/-- Action of adaptIndex when used as a schema adapter on a raw result
(src lines 104-113 referenced at lines 117, 130). -/
def adaptIndexH {V E : Type} : HRes V E → HRes V E :=
  fun h => HRes.wrapped "adaptIndex" h

/-- Hidden source of an HRes proxy: a wrapper exposes the raw result it was
built over; anything else has no hidden source. -/
def HRes.sourceOf {V E : Type} : HRes V E → HRes V E
  | HRes.wrapped _ raw => raw
  | h => h

/-- A native cursor handle as the layer uses it: its current value and the
native requests returned by its delete() and update(value) operations
(engine behavior is opaque, spec section 3). -/
structure NativeCursor (V E : Type) where
  value : V
  deleteReq : Request V E
  updateReq : V → Request V E

/-- Method table of a native cursor, as observed by the forwarding wrappers:
value is a plain getter, delete() and update(v) return native requests.
The effectful continue() operation is modelled in the iterator machine
(pullIter), not as a pure result. -/
def cursorMethods {K V E : Type} (c : NativeCursor V E) : String → JArg K V → HRes V E :=
  fun key args =>
    if key = "value" then HRes.plain c.value
    else if key = "delete" then HRes.request c.deleteReq
    else if key = "update" then
      match args with
      | JArg.val v => HRes.request (c.updateReq v)
      | _ => HRes.undef
    else HRes.undef

/-- The cursor adaptation schema (src lines 97-102): delete and update are
piped through adaptRequest; everything else passes through unchanged. -/
def cursorSchema {V E : Type} : String → Option (HRes V E → HRes V E) := fun key =>
  if key = "delete" then some adaptRequestH
  else if key = "update" then some adaptRequestH
  else none

/-- adaptCursor (src lines 97-102): applyAdapters over a native cursor with
the cursor schema. -/
def adaptCursor {K V E : Type} (c : NativeCursor V E) :
    Adapted (NativeCursor V E) String (JArg K V) (HRes V E) :=
  applyAdapters c cursorMethods cursorSchema

/-- A native object store handle: an opaque method table (spec section 3
treats engine internals as opaque; the layer only forwards calls to it). -/
structure NativeStore (K V E : Type) where
  call : String → JArg K V → HRes V E

/-- The object-store adaptation schema (src lines 115-131): the nine
request-returning data operations are piped through adaptRequest, the two
cursor-opening operations through adaptCursor, and index/createIndex through
adaptIndex; every other operation passes through unchanged. -/
def objectStoreSchema {V E : Type} : String → Option (HRes V E → HRes V E) := fun key =>
  if key = "clear" then some adaptRequestH
  else if key = "get" then some adaptRequestH
  else if key = "index" then some adaptIndexH
  else if key = "delete" then some adaptRequestH
  else if key = "getKey" then some adaptRequestH
  else if key = "count" then some adaptRequestH
  else if key = "put" then some adaptRequestH
  else if key = "add" then some adaptRequestH
  else if key = "getAll" then some adaptRequestH
  else if key = "getAllKeys" then some adaptRequestH
  else if key = "openCursor" then some adaptCursorH
  else if key = "openKeyCursor" then some adaptCursorH
  else if key = "createIndex" then some adaptIndexH
  else none

/-- adaptObjectStore (src lines 115-131): applyAdapters over a native store
with the object-store schema. -/
def adaptObjectStore {K V E : Type} (store : NativeStore K V E) :
    Adapted (NativeStore K V E) String (JArg K V) (HRes V E) :=
  applyAdapters store NativeStore.call objectStoreSchema

/-- Claim C8: the factory forwards a schema-named operation verbatim to the
native handle (same operation name, same arguments) and pipes the raw
result through the schema's adapter, while an operation absent from the
schema returns the raw result unmodified; in particular, adapting an object
store whose get(key) returns a request that later succeeds makes the adapted
get(key) a future bound to that request, and that future resolves to exactly
the request's result value, while any operation without a schema entry
passes its plain raw value through unchanged. -/
theorem applyAdapters_dispatch {S N A R K V E : Type} (src : S)
    (methods : S → N → A → R) (schema : N → Option (R → R)) (key : N) (args : A)
    (ad : R → R) (store : NativeStore K V E) (k : K) (r : Request V E) (v : V)
    (rawName : String) :
    (schema key = some ad →
      (applyAdapters src methods schema).call key args = ad (methods src key args)) ∧
    (schema key = none →
      (applyAdapters src methods schema).call key args = methods src key args) ∧
    (store.call "get" (JArg.key k) = HRes.request r →
      (adaptObjectStore store).call "get" (JArg.key k) = HRes.future r ∧
      (runReq r [EvName.success]).settled = some (Outcome.resolved r.result)) ∧
    (objectStoreSchema (V := V) (E := E) rawName = none →
      store.call rawName (JArg.key k) = HRes.plain v →
      (adaptObjectStore store).call rawName (JArg.key k) = HRes.plain v) := by
  refine ⟨fun h => ?_, fun h => ?_, fun h => ?_, fun h1 h2 => ?_⟩
  · simp [applyAdapters, h]
  · simp [applyAdapters, h]
  · refine ⟨?_, rfl⟩
    have hschema : objectStoreSchema (V := V) (E := E) "get" = some adaptRequestH := rfl
    simp [adaptObjectStore, applyAdapters, hschema, h, adaptRequestH]
  · simp [adaptObjectStore, applyAdapters, h1, h2]

/-- Concrete simulated object store for the C8 witness: get(key) returns a
native request succeeding with key + 1; the operation named rawOp is absent
from the schema and returns the plain value 0. -/
def storeW : NativeStore Nat Nat String :=
  ⟨fun key args =>
    if key = "get" then
      match args with
      | JArg.key k => HRes.request ⟨k + 1, "e"⟩
      | _ => HRes.undef
    else HRes.plain 0⟩

/-- Witness for C8: on the concrete store storeW, the adapted get(4) is the
future bound to the request succeeding with 5, and that future resolves
to 5. -/
theorem applyAdapters_dispatch_witness :
    (adaptObjectStore storeW).call "get" (JArg.key 4) = HRes.future ⟨5, "e"⟩ ∧
    (runReq (⟨5, "e"⟩ : Request Nat String) [EvName.success]).settled
      = some (Outcome.resolved 5) :=
  (applyAdapters_dispatch () (fun _ _ _ => ()) (fun _ => none) () () id
    storeW 4 ⟨5, "e"⟩ 0 "rawOp").2.2.1 rfl

/-- State of the adaptRequestIterator generator between pulls
(src lines 55-67): at the loop top about to await adaptRequest, suspended at
the yield having just yielded the adapted wrapper of a cursor, or finished
after the break. -/
inductive IterState (V E : Type) where
  | ready
  | suspended (c : NativeCursor V E)
  | finished

/-- One pull of the adaptRequestIterator generator (src lines 55-67).  The
pull supplies the value the inner adaptRequest future resolved to (none
models a falsy cursor).  From the suspended state the generator first
resumes past the yield and itself calls continue() on the previously
yielded cursor's native handle (third component records the continue calls
this pull performs), then awaits; a falsy value breaks out of the loop
without a yield, any other cursor is yielded wrapped by adaptCursor. -/
def pullIter {K V E : Type} (s : IterState V E) (resolved : Option (NativeCursor V E)) :
    Option (Adapted (NativeCursor V E) String (JArg K V) (HRes V E)) ×
      IterState V E × List (NativeCursor V E) :=
  match s with
  | IterState.finished => (none, IterState.finished, [])
  | IterState.ready =>
    match resolved with
    | none => (none, IterState.finished, [])
    | some c => (some (adaptCursor c), IterState.suspended c, [])
  | IterState.suspended prev =>
    match resolved with
    | none => (none, IterState.finished, [prev])
    | some c => (some (adaptCursor c), IterState.suspended c, [prev])

/-- Drive the generator with successive resolution values until it stops
yielding, collecting the yielded adapted items and the continue calls it
made on native cursor handles. -/
def runIterGo {K V E : Type} (s : IterState V E) :
    List (Option (NativeCursor V E)) →
      List (Adapted (NativeCursor V E) String (JArg K V) (HRes V E)) ×
        List (NativeCursor V E)
  | [] => ([], [])
  | r :: rest =>
    match pullIter (K := K) s r with
    | (none, _, cs) => ([], cs)
    | (some item, s1, cs) =>
      let next := runIterGo (K := K) s1 rest
      (item :: next.1, cs ++ next.2)

/-- A full consumer-driven run of the cursor sequence from its start. -/
def runIter {K V E : Type} (resolves : List (Option (NativeCursor V E))) :
    List (Adapted (NativeCursor V E) String (JArg K V) (HRes V E)) ×
      List (NativeCursor V E) :=
  runIterGo (K := K) IterState.ready resolves

/-- Claim C6: a falsy resolved value terminates the cursor sequence without
yielding it (from any generator state a pull resolving falsy yields
nothing), every other resolved value is yielded wrapped by adaptCursor,
whose delete() and update(value) are request-future-wrapped operations; and
the run resolving to cursors c1, c2 and then a falsy value yields exactly
the two adapted items and no third. -/
theorem cursorSequence_yields {K V E : Type} (c1 c2 : NativeCursor V E) (v : V) :
    (runIter (K := K) [some c1, some c2, none]).1 = [adaptCursor c1, adaptCursor c2] ∧
    (runIter (K := K) [some c1, some c2, none]).1.length = 2 ∧
    (adaptCursor (K := K) c1).call "delete" JArg.noArg = HRes.future c1.deleteReq ∧
    (adaptCursor (K := K) c1).call "update" (JArg.val v) = HRes.future (c1.updateReq v) ∧
    (∀ s : IterState V E, (pullIter (K := K) s none).1 = none) := by
  refine ⟨rfl, rfl, rfl, rfl, fun s => ?_⟩
  cases s <;> rfl

/-- Concrete cursors for the C5 counterexample. -/
def curs1 : NativeCursor Nat String := ⟨1, ⟨101, "e"⟩, fun v => ⟨v, "e"⟩⟩

/-- Second concrete cursor for the C5 counterexample. -/
def curs2 : NativeCursor Nat String := ⟨2, ⟨102, "e"⟩, fun v => ⟨v, "e"⟩⟩

/-- Counterexample to C5 as stated: in the concrete run resolving to cursors
curs1, curs2 and then a falsy value, the consumer never invokes any
continuation, yet the sequence itself performs continue() calls on the
native cursor handles curs1 and curs2 — the continue trace is nonempty, so a
pull of the sequence does invoke the cursor's continuation operation. -/
theorem cursor_pull_invokes_continue_cex :
    (runIter (K := Nat) [some curs1, some curs2, none]).2 = [curs1, curs2] ∧
    ([curs1, curs2] : List (NativeCursor Nat String)) ≠ [] :=
  ⟨rfl, List.cons_ne_nil curs1 [curs2]⟩

/-- Claim C5 (amended): advancement is automatic, not consumer-driven — after
an item is yielded, the next pull of the sequence itself invokes continue()
exactly once on the previously yielded cursor's native handle before
awaiting the next value, while the first pull and pulls after termination
invoke none. -/
theorem cursorSequence_auto_continue {K V E : Type} (c : NativeCursor V E)
    (resolved : Option (NativeCursor V E)) :
    (pullIter (K := K) (IterState.suspended c) resolved).2.2 = [c] ∧
    (pullIter (K := K) IterState.ready resolved).2.2 = [] ∧
    (pullIter (K := K) IterState.finished resolved).2.2 = [] := by
  cases resolved <;> exact ⟨rfl, rfl, rfl⟩

/-- The argument accepted by adaptRequest and adaptRequestIterator: a native
request handle, or an applyAdapters proxy holding the native request as its
hidden source (for example the wrapper the object-store schema builds around
an openCursor request). -/
inductive ReqArg (V E : Type) where
  | native (r : Request V E)
  | proxied (r : Request V E)

/-- The unwrap at src lines 38 and 56: a proxy yields its hidden source
reference, a native request is used as is. -/
def ReqArg.sourceOrSelf {V E : Type} : ReqArg V E → Request V E
  | ReqArg.native r => r
  | ReqArg.proxied r => r

/-- adaptRequest as called by users (src lines 37-53): first unwrap the
hidden source, then run the success/error race on the native request. -/
def adaptRequestRun {V E : Type} (a : ReqArg V E) (es : List EvName) : AdaptState V E :=
  runReq a.sourceOrSelf es

/-- adaptRequestIterator as called by users (src lines 55-67): first unwrap
the hidden source; the first await resolves with the native request's
current result, later pulls with the engine-updated results. -/
def adaptRequestIteratorRun {K V E : Type} (a : ReqArg (Option (NativeCursor V E)) E)
    (later : List (Option (NativeCursor V E))) :
    List (Adapted (NativeCursor V E) String (JArg K V) (HRes V E)) ×
      List (NativeCursor V E) :=
  runIterGo (K := K) IterState.ready (a.sourceOrSelf.result :: later)

/-- Claim C9: adaptRequest and adaptRequestIterator unwrap the hidden source
reference installed by the factory, so passing the adapted wrapper of a
native request behaves identically to passing the native request itself, for
every notification sequence and every pull sequence; and the factory indeed
installs the wrapped handle as the hidden source (adaptCursor's source is
the cursor it wrapped, and a wrapped schema result exposes the raw result it
was built over). -/
theorem source_unwrap_equiv {K V E : Type} (r : Request V E) (es : List EvName)
    (rc : Request (Option (NativeCursor V E)) E)
    (later : List (Option (NativeCursor V E))) (c : NativeCursor V E)
    (h : HRes V E) :
    adaptRequestRun (ReqArg.proxied r) es = adaptRequestRun (ReqArg.native r) es ∧
    adaptRequestIteratorRun (K := K) (ReqArg.proxied rc) later
      = adaptRequestIteratorRun (K := K) (ReqArg.native rc) later ∧
    (adaptCursor (K := K) c).source = c ∧
    (adaptCursorH h).sourceOf = h :=
  ⟨rfl, rfl, rfl, rfl⟩

end IndexedDB
